import Mathlib

/-!
# Verification of the SALA download-automation core

Shallow embedding of the resilient UI-automation engine of the
SALATasksAIAgent repository, together with proofs about the behaviour of
its main routines:

* `wait_for_download_complete` (download-completion polling,
  `auto_download_county_file_sharepoint.py` / `download_alameda_sharepoint.py`),
* `find_and_click_file` (two-pass fuzzy matcher, same file),
* `scroll_to_load_all` / `_find_scrollable_container` (lazy-load exhaustion),
* `select_county` / `wait_for_selected_value` / `current_selected_value`
  (filter-selection state machine, `final_working_downloader_auto.py`),
* `get_sharepoint_links_from_powerbi` (link harvester,
  `final_working_downloader.py`),
* `load_target_counties` (environment-driven target list).

Browser/driver and filesystem effects are modelled by explicit
environment functions (observation streams) and oracle fields recording
the outcome of each externally-observable step (e.g. whether a click
call threw).  All definitions are executable.
-/

namespace Sala

/-! ## String primitives

Python `str.strip`, `str.split`, `str.lower` and the `in` substring
test, and JavaScript `trim` / `includes` / `toLowerCase`, modelled
structurally on the character list so that every theorem can be settled
by kernel evaluation.  Only ASCII whitespace matters for the inputs of
this program.
-/

/-- ASCII whitespace, as stripped by Python `strip` / JS `trim`. -/
def isWs (c : Char) : Bool :=
  c = ' ' || c = '\t' || c = '\n' || c = '\r'

/-- Strip leading and trailing whitespace from a character list. -/
def stripList (l : List Char) : List Char :=
  ((l.dropWhile isWs).reverse.dropWhile isWs).reverse

/-- Python `s.strip()` / JS `s.trim()`. -/
def pyStrip (s : String) : String :=
  ⟨stripList s.data⟩

/-- Split a character list on the comma character, keeping empty segments
(Python `s.split(",")` semantics). -/
def splitCommaList : List Char → List (List Char)
  | [] => [[]]
  | c :: rest =>
    let r := splitCommaList rest
    if c = ',' then [] :: r
    else
      match r with
      | [] => [[c]]
      | h :: t => (c :: h) :: t

/-- Python `s.split(",")`. -/
def pySplit (s : String) : List String :=
  (splitCommaList s.data).map (fun l => (⟨l⟩ : String))

/-- Test that `needle` occurs as a contiguous infix of the list `hay`. -/
def isInfixList (needle : List Char) : List Char → Bool
  | [] => needle.isEmpty
  | c :: rest => needle.isPrefixOf (c :: rest) || isInfixList needle rest

/-- Substring test: Python `needle in hay`, JS `hay.includes(needle)`. -/
def strContains (hay needle : String) : Bool :=
  isInfixList needle.data hay.data

/-- ASCII lower-casing of a string (Python `s.lower()`,
JS `s.toLowerCase()`). -/
def strLower (s : String) : String :=
  ⟨s.data.map Char.toLower⟩

/-- Case-insensitive substring test, as the code writes it:
`needle.lower() in hay.lower()`. -/
def strContainsCI (hay needle : String) : Bool :=
  strContains (strLower hay) (strLower needle)

/-! ## C1 — download-completion polling

`wait_for_download_complete(download_dir, timeout)` from
`auto_download_county_file_sharepoint.py` (lines 52–71) and, verbatim,
`download_alameda_sharepoint.py` (lines 55–74).  A directory state is a
list of files with name, modification time and size; the polling loop is
given fuel (the number of `time.time() < end_time` checks the timeout
allows) and repeatedly inspects the directory, which we keep stable
across the wait (the post-download directory state the claim speaks of).
-/

/-- One file of the download directory: path, `os.path.getmtime` value and
`os.path.getsize` value. -/
structure DirFile where
  path : String
  mtime : Nat
  size : Nat
  deriving DecidableEq, Repr

/-- Test that `suf` is a suffix of the list `l`. -/
def isSuffixList (suf l : List Char) : Bool :=
  suf.reverse.isPrefixOf l.reverse

/-- Membership of `glob.glob(os.path.join(download_dir, "*.crdownload"))`. -/
def isCrdownloadFile (f : DirFile) : Bool :=
  isSuffixList ".crdownload".data f.path.data

/-- Membership of `glob.glob(os.path.join(download_dir, "*.png"))`. -/
def isPngFile (f : DirFile) : Bool :=
  isSuffixList ".png".data f.path.data

/-- Python `max(png_files, key=os.path.getmtime)`: left fold keeping the
current maximum, replacing it only on a strictly larger key (so ties keep
the earlier element, exactly as Python `max` does). -/
def maxByMtimeAux (cur : DirFile) : List DirFile → DirFile
  | [] => cur
  | f :: rest => maxByMtimeAux (if f.mtime > cur.mtime then f else cur) rest

/-- The most recently modified file of a list, `none` on the empty list. -/
def latestPng : List DirFile → Option DirFile
  | [] => none
  | f :: rest => some (maxByMtimeAux f rest)

/-- One iteration of the polling loop body: if no `.crdownload` file is
present and some `.png` exists whose most recent representative has
non-zero size, return it; otherwise report nothing yet. -/
def downloadCheckOnce (dir : List DirFile) : Option DirFile :=
  if (dir.filter isCrdownloadFile).isEmpty then
    match latestPng (dir.filter isPngFile) with
    | some latest => if latest.size > 0 then some latest else none
    | none => none
  else none

/-- Model of `wait_for_download_complete`: poll `fuel` times over the (stable)
directory state, returning the first successful check, `None` on
timeout.  Note the function receives no snapshot of the directory taken
before the download. -/
def wait_for_download_complete (dir : List DirFile) : Nat → Option DirFile
  | 0 => none
  | fuel + 1 =>
    match downloadCheckOnce dir with
    | some f => some f
    | none => wait_for_download_complete dir fuel

/-- A pre-download snapshot of two files, as in the claim's scenario. -/
def exSnapshotC1 : List String := ["a.png", "b.png"]

/-- A post-download directory of three files in which the one new file
`c.png` has non-zero size but is NOT the most recently modified file
(e.g. a pre-existing file was touched after the new file landed). -/
def exDirC1 : List DirFile :=
  [⟨"a.png", 10, 4⟩, ⟨"b.png", 9, 4⟩, ⟨"c.png", 5, 7⟩]

/-- C1 (counterexample): `wait_for_download_complete` can return a file
that was already present in the pre-download snapshot.  With snapshot
`{a.png, b.png}` and post-download directory `{a.png, b.png, c.png}`
where the new file `c.png` has non-zero size, the function returns the
pre-existing `a.png` (the `.png` with the largest modification time),
not the new file — refuting "never returns a file that was already
present in the pre-download snapshot". -/
theorem wait_for_download_complete_returns_snapshot_file :
    wait_for_download_complete exDirC1 3 = some ⟨"a.png", 10, 4⟩
    ∧ "a.png" ∈ exSnapshotC1
    ∧ (⟨"c.png", 5, 7⟩ : DirFile) ∈ exDirC1 ∧ 0 < (5 : Nat) := by
  decide

/-- C1 (amended): `wait_for_download_complete` ignores any pre-download
snapshot.  Once no `.crdownload` file remains, it returns the single most
recently modified `.png` file of the directory provided that file has
non-zero size — whether or not it was present before the download.  In
the claim's 2-files-plus-1-new scenario it therefore returns exactly the
new file precisely when the new file is the most recently modified
`.png`. -/
theorem wait_for_download_complete_latest_png (dir : List DirFile)
    (fuel : Nat) (f : DirFile)
    (hfuel : 0 < fuel)
    (hcr : dir.filter isCrdownloadFile = [])
    (hlatest : latestPng (dir.filter isPngFile) = some f)
    (hsize : 0 < f.size) :
    wait_for_download_complete dir fuel = some f := by
  obtain ⟨n, rfl⟩ : ∃ n, fuel = n + 1 := ⟨fuel - 1, by omega⟩
  unfold wait_for_download_complete downloadCheckOnce
  rw [hcr, hlatest]
  simp [hsize]

/-- Witness scenario for the amended C1: two pre-existing files and one
new non-zero-size file that is also the most recently modified `.png`. -/
def exDirC1w : List DirFile :=
  [⟨"a.png", 1, 4⟩, ⟨"b.png", 2, 4⟩, ⟨"c.png", 3, 7⟩]

/-- Witness for the amended C1 at the claim's own scenario: with two
pre-existing files and a new, most-recent, non-zero-size `c.png`, the
wait returns exactly `c.png`. -/
theorem wait_for_download_complete_latest_png_witness :
    (exDirC1w.filter isCrdownloadFile = []
      ∧ latestPng (exDirC1w.filter isPngFile) = some ⟨"c.png", 3, 7⟩
      ∧ 0 < (7 : Nat))
    ∧ wait_for_download_complete exDirC1w 1 = some ⟨"c.png", 3, 7⟩ :=
  ⟨⟨by decide, by decide, by decide⟩,
    wait_for_download_complete_latest_png exDirC1w 1 ⟨"c.png", 3, 7⟩
      (by decide) (by decide) (by decide) (by decide)⟩

/-! ## C2 / C6 — the two-pass fuzzy matcher `find_and_click_file`

Model of `find_and_click_file(driver, target_filename)` from
`auto_download_county_file_sharepoint.py` (lines 256–358).  A DOM is a
list of elements in document order; every derived attribute the two
injected scripts read is a field, and the outcome of the
`scrollIntoView` + `click()` call (wrapped in `try/catch` in the script)
is recorded by the oracle field `clickThrows`.
-/

/-- One DOM element as seen by the matcher scripts: `textContent`,
the `aria-label` / `title` / `name` attributes (empty string when the
attribute is absent, as the scripts normalise with an or-empty guard),
`getBoundingClientRect()` width/height in pixels, and whether the native
click call on it throws. -/
structure DomElem where
  text : String
  aria : String
  title : String
  nameAttr : String
  width : Int
  height : Int
  clickThrows : Bool
  deriving DecidableEq, Repr

/-- Strategy 1 predicate: pushed onto `matches` iff the trimmed text
equals the target, or `aria-label` / `title` contain it, or `name`
equals it, and the bounding rectangle has positive width and height. -/
def exactMatchPred (fileName : String) (el : DomElem) : Bool :=
  (pyStrip el.text == fileName || strContains el.aria fileName
      || strContains el.title fileName || el.nameAttr == fileName)
    && decide (0 < el.width) && decide (0 < el.height)

/-- Strategy 2 predicate: trimmed text contains the target as a
substring, positive width and height, and width strictly below 500px. -/
def partialMatchPred (fileName : String) (el : DomElem) : Bool :=
  strContains (pyStrip el.text) fileName
    && decide (0 < el.width) && decide (0 < el.height)
    && decide (el.width < 500)

/-- Candidates of the exact pass, in document order. -/
def exactMatches (dom : List DomElem) (fileName : String) : List DomElem :=
  dom.filter (exactMatchPred fileName)

/-- Candidates of the partial pass, in document order. -/
def partialMatches (dom : List DomElem) (fileName : String) : List DomElem :=
  dom.filter (partialMatchPred fileName)

/-- Result of one injected matching script: `noMatch` models the script
returning `null`, `clicked el` models `{success: true}` after the click
on the first candidate landed, `clickFailed el` models
`{success: false, error}` after the click on the first candidate
threw. -/
inductive PassResult where
  | noMatch
  | clicked (el : DomElem)
  | clickFailed (el : DomElem)
  deriving DecidableEq, Repr

/-- Run one matching script over its candidate list: click the first
candidate if any. -/
def runPass (cands : List DomElem) : PassResult :=
  match cands with
  | [] => .noMatch
  | el :: _ => if el.clickThrows then .clickFailed el else .clicked el

/-- Observable outcome of `find_and_click_file`: the Python return
value, the exact-pass script result, whether the partial pass (Strategy
2) was attempted at all, and its script result when it was. -/
structure FindOutcome where
  found : Bool
  exactResult : PassResult
  partialAttempted : Bool
  partialResult : PassResult
  deriving DecidableEq, Repr

/-- Model of `find_and_click_file`: run the exact pass; on a delivered
click return `True`; otherwise (no exact candidate, or the click on the
first exact candidate threw) run the partial pass and return whether it
delivered a click. -/
def find_and_click_file (dom : List DomElem) (fileName : String) :
    FindOutcome :=
  match runPass (exactMatches dom fileName) with
  | .clicked el => ⟨true, .clicked el, false, .noMatch⟩
  | ex =>
    match runPass (partialMatches dom fileName) with
    | .clicked el => ⟨true, ex, true, .clicked el⟩
    | pa => ⟨false, ex, true, pa⟩

/-- A visible element whose trimmed text equals the target but whose
native click throws. -/
def exElemC2 : DomElem := ⟨"Alameda", "", "", "", 10, 10, true⟩

/-- A visible element whose `name` attribute merely CONTAINS the target
"Alameda" without being equal to it, with no other matching
attribute. -/
def exElemNameC2 : DomElem := ⟨"", "", "", "Alameda County", 10, 10, false⟩

/-- C2 (counterexample), refuting two parts of the claim at concrete
inputs.  First, when the click on the first (and only) visible exact
match throws, no click is delivered and the partial (substring) pass IS
attempted — refuting "a click is delivered to the first such element in
document order and the partial pass is never attempted".  Second, for a
visible element whose `name` attribute contains the target "Alameda"
without being equal to it ("Alameda County"), the claim's trigger "its
aria-label/title/name contains it" holds, yet the code's exact pass
requires equality on `name` (line 281, `name === fileName` — modelled
by `exactMatchPred`), so neither pass matches and no click is attempted
at all — refuting the claim's description of the exact-pass trigger. -/
theorem find_and_click_file_partial_after_exact_throw :
    (exactMatchPred "Alameda" exElemC2 = true
      ∧ pyStrip exElemC2.text = "Alameda"
      ∧ (find_and_click_file [exElemC2] "Alameda").partialAttempted = true
      ∧ (find_and_click_file [exElemC2] "Alameda").found = false)
    ∧ (strContains exElemNameC2.nameAttr "Alameda" = true
      ∧ 0 < exElemNameC2.width ∧ 0 < exElemNameC2.height
      ∧ exactMatchPred "Alameda" exElemNameC2 = false
      ∧ find_and_click_file [exElemNameC2] "Alameda"
          = ⟨false, .noMatch, true, .noMatch⟩) := by
  decide

/-- C2 (amended): the matcher attempts the exact pass before the partial
pass and short-circuits on first success; whenever some visible element
satisfies the exact pass — its trimmed text equals the target, or its
aria-label or title contains the target, or its `name` attribute EQUALS
the target (containment does not suffice for `name`) — the click is
attempted on the first such element in document order, and if that
click does not throw it is delivered and the partial pass is never
attempted (if it throws, the partial pass runs as a fallback). -/
theorem find_and_click_file_exact_first (dom : List DomElem)
    (fileName : String) (el : DomElem) (rest : List DomElem)
    (hmat : exactMatches dom fileName = el :: rest)
    (hok : el.clickThrows = false) :
    find_and_click_file dom fileName = ⟨true, .clicked el, false, .noMatch⟩ := by
  unfold find_and_click_file
  rw [hmat]
  simp [runPass, hok]

/-- An element whose text contains "Alameda" only as a substring; it
precedes the exact match in document order. -/
def exElemReport : DomElem := ⟨"Alameda County Report", "", "", "", 200, 20, false⟩

/-- A visible element whose trimmed text is exactly "Alameda". -/
def exElemAlameda : DomElem := ⟨"Alameda", "", "", "", 120, 20, false⟩

/-- Witness for the amended C2 at the claim's own scenario: a DOM
holding both "Alameda County Report" (earlier in document order) and an
exact "Alameda"; the exact match is the one clicked, and the partial
pass is never attempted. -/
theorem find_and_click_file_exact_first_witness :
    (exactMatches [exElemReport, exElemAlameda] "Alameda" = [exElemAlameda]
      ∧ exElemAlameda.clickThrows = false)
    ∧ find_and_click_file [exElemReport, exElemAlameda] "Alameda"
        = ⟨true, .clicked exElemAlameda, false, .noMatch⟩ :=
  ⟨⟨by decide, by decide⟩,
    find_and_click_file_exact_first [exElemReport, exElemAlameda] "Alameda"
      exElemAlameda [] (by decide) (by decide)⟩

/-- Auxiliary: a delivered or failed click of a pass targets the head of
its candidate list, so the targeted element is a member of that list. -/
theorem runPass_mem (l : List DomElem) (el : DomElem) :
    (runPass l = .clicked el ∨ runPass l = .clickFailed el) → el ∈ l := by
  cases l with
  | nil => intro h; rcases h with h | h <;> simp [runPass] at h
  | cons a t =>
    intro h
    have : el = a := by
      rcases h with h | h <;> by_cases hc : a.clickThrows <;>
        simp [runPass, hc] at h <;> exact h.symm
    simp [this]

/-- C6: the matcher never clicks (nor even targets) an element of zero
rendered width or height — in particular never one whose width and
height are both zero — and in the partial pass only elements of width
strictly below 500px are eligible, so a textually matching element of
width 500px or more is never clicked by the partial pass. -/
theorem find_and_click_file_visibility (dom : List DomElem)
    (fileName : String) (el : DomElem) :
    ((find_and_click_file dom fileName).exactResult = .clicked el →
      0 < el.width ∧ 0 < el.height)
    ∧ ((find_and_click_file dom fileName).partialResult = .clicked el →
      0 < el.width ∧ 0 < el.height ∧ el.width < 500) := by
  have hx : ∀ e, e ∈ exactMatches dom fileName →
      0 < e.width ∧ 0 < e.height := by
    intro e he
    have := List.of_mem_filter he
    simp only [exactMatchPred, Bool.and_eq_true, decide_eq_true_eq] at this
    exact ⟨this.1.2, this.2⟩
  have hp : ∀ e, e ∈ partialMatches dom fileName →
      0 < e.width ∧ 0 < e.height ∧ e.width < 500 := by
    intro e he
    have := List.of_mem_filter he
    simp only [partialMatchPred, Bool.and_eq_true, decide_eq_true_eq] at this
    exact ⟨this.1.1.2, this.1.2, this.2⟩
  have hex : (find_and_click_file dom fileName).exactResult
      = runPass (exactMatches dom fileName) := by
    unfold find_and_click_file
    rcases runPass (exactMatches dom fileName) with _ | e | e <;>
      rcases runPass (partialMatches dom fileName) with _ | e2 | e2 <;> rfl
  have hpa : (find_and_click_file dom fileName).partialResult = .noMatch
      ∨ (find_and_click_file dom fileName).partialResult
        = runPass (partialMatches dom fileName) := by
    unfold find_and_click_file
    rcases runPass (exactMatches dom fileName) with _ | e | e <;>
      rcases runPass (partialMatches dom fileName) with _ | e2 | e2 <;>
        simp
  constructor
  · intro hclick
    exact hx el (runPass_mem _ el (Or.inl (hex ▸ hclick)))
  · intro hclick
    rcases hpa with hno | heq
    · rw [hno] at hclick; cases hclick
    · exact hp el (runPass_mem _ el (Or.inl (heq ▸ hclick)))

/-- A partially matching, visible, narrow element with no exact match
anywhere. -/
def exElemC6 : DomElem := ⟨"Alameda County Report", "", "", "", 100, 20, false⟩

/-- Witness for C6: in a DOM whose only match is a partial one, the
clicked element indeed has positive width and height and width below
500px. -/
theorem find_and_click_file_visibility_witness :
    (find_and_click_file [exElemC6] "Alameda").partialResult
        = .clicked exElemC6
    ∧ (0 < exElemC6.width ∧ 0 < exElemC6.height ∧ exElemC6.width < 500) :=
  ⟨by decide,
    (find_and_click_file_visibility [exElemC6] "Alameda" exElemC6).2 (by decide)⟩

/-! ## C3 — the lazy-load exhauster `scroll_to_load_all`

Model of `scroll_to_load_all(driver, max_scrolls=20, wait_time=2.0)` from
`auto_download_county_file_sharepoint.py` (lines 132–194).  Iteration `i`
of the loop queries `_count_file_items` before scrolling (`prev_count`,
modelled as the first component of `obs i`) and again after the scroll
settles (`new_count`, the second component); the environment stream
`obs` supplies both observations.  The loop breaks once
`consecutive_same` reaches 3 or `max_scrolls` iterations have run, and
the code then resets the container `scrollTop` to 0.  The Python
function has no `return` statement, so its value is `None`.
-/

/-- Observable outcome of one `scroll_to_load_all` call: how many loop
iterations ran, the `new_count` of the last iteration (if any ran), the
container `scrollTop` after the final reset, and the Python return
value. -/
structure ScrollRun where
  iterations : Nat
  lastCount : Option Nat
  finalScrollTop : Nat
  retVal : Option Nat
  deriving DecidableEq, Repr

/-- The scroll loop: `i` is the current iteration index, the second
argument the remaining iterations of `range(max_scrolls)`, `cons` the
`consecutive_same` counter and the last argument the most recent
`new_count`.  Returns the iteration count at exit together with the last
`new_count`. -/
def scrollLoopAux (obs : Nat → Nat × Nat) :
    Nat → Nat → Nat → Option Nat → Nat × Option Nat
  | i, 0, _, last => (i, last)
  | i, r + 1, cons, _ =>
    if (obs i).2 = (obs i).1 then
      if 3 ≤ cons + 1 then (i + 1, some (obs i).2)
      else scrollLoopAux obs (i + 1) r (cons + 1) (some (obs i).2)
    else scrollLoopAux obs (i + 1) r 0 (some (obs i).2)

/-- Model of `scroll_to_load_all`: run the loop from iteration 0 with
`consecutive_same = 0`, then scroll the container back to the top
(`scrollTop = 0`).  The Python function body ends without a `return`,
so the returned value is `None`. -/
def scroll_to_load_all (obs : Nat → Nat × Nat) (maxScrolls : Nat := 20) :
    ScrollRun :=
  { iterations := (scrollLoopAux obs 0 maxScrolls 0 none).1
    lastCount := (scrollLoopAux obs 0 maxScrolls 0 none).2
    finalScrollTop := 0
    retVal := none }

/-- Iteration `i` observed no change in the item count. -/
def sameCountAt (obs : Nat → Nat × Nat) (i : Nat) : Bool :=
  (obs i).2 == (obs i).1

/-- The loop's break condition fires at the end of iteration `j`:
`j` is at least the third iteration and iterations `j-2`, `j-1`, `j`
all observed no change in count. -/
def settleBreakAt (obs : Nat → Nat × Nat) (j : Nat) : Bool :=
  decide (2 ≤ j) && sameCountAt obs (j - 2) && sameCountAt obs (j - 1)
    && sameCountAt obs j

/-- First iteration index in `[i, i + r)` at which the break condition
fires, if any. -/
def firstSettleBreak (obs : Nat → Nat × Nat) : Nat → Nat → Option Nat
  | _, 0 => none
  | i, r + 1 =>
    if settleBreakAt obs i then some i else firstSettleBreak obs (i + 1) r

/-- Number of scroll attempts the spec prescribes: attempts continue
until three consecutive attempts produce no change in the counted item
number (the attempt completing the third unchanged observation is the
last one) or the attempt ceiling is reached. -/
def specScrollIterations (obs : Nat → Nat × Nat) (maxScrolls : Nat) : Nat :=
  match firstSettleBreak obs 0 maxScrolls with
  | some j => j + 1
  | none => maxScrolls

/-- Auxiliary: a found break index lies below `i + r`. -/
theorem firstSettleBreak_lt (obs : Nat → Nat × Nat) :
    ∀ r i j, firstSettleBreak obs i r = some j → j < i + r := by
  intro r
  induction r with
  | zero => intro i j h; cases h
  | succ r ih =>
    intro i j h
    unfold firstSettleBreak at h
    by_cases hb : settleBreakAt obs i = true
    · rw [if_pos hb] at h
      cases h
      omega
    · rw [if_neg hb] at h
      have := ih (i + 1) j h
      omega

/-- Auxiliary: unfolding of the break search when the condition fires at
`i`. -/
theorem firstSettleBreak_cons_true (obs : Nat → Nat × Nat) (i r : Nat)
    (h : settleBreakAt obs i = true) :
    firstSettleBreak obs i (r + 1) = some i := by
  unfold firstSettleBreak
  rw [if_pos h]

/-- Auxiliary: unfolding of the break search when the condition does not
fire at `i`. -/
theorem firstSettleBreak_cons_false (obs : Nat → Nat × Nat) (i r : Nat)
    (h : settleBreakAt obs i = false) :
    firstSettleBreak obs i (r + 1) = firstSettleBreak obs (i + 1) r := by
  conv_lhs => unfold firstSettleBreak
  rw [if_neg (by simp [h])]

/-- Loop invariant argument: provided `cons` records exactly the length
of the maximal run of unchanged iterations ending just before iteration
`i`, that run is shorter than 3, and no break fired before `i`, the loop
exits at the first break index (plus one) or after all remaining
iterations. -/
theorem scrollLoopAux_iterations (obs : Nat → Nat × Nat) :
    ∀ (r i cons : Nat) (last : Option Nat),
      cons ≤ 2 →
      cons ≤ i →
      (∀ t, t < cons → sameCountAt obs (i - 1 - t) = true) →
      (cons = i ∨ sameCountAt obs (i - 1 - cons) = false) →
      (scrollLoopAux obs i r cons last).1
        = (match firstSettleBreak obs i r with
           | some j => j + 1
           | none => i + r) := by
  intro r
  induction r with
  | zero => intro i cons last _ _ _ _; rfl
  | succ r ih =>
    intro i cons last h2 hci hrun hexact
    have hbreak_of_not :
        (¬ (obs i).2 = (obs i).1 ∨ cons + 1 < 3) → settleBreakAt obs i = false := by
      intro h
      rcases h with h | h
      · unfold settleBreakAt sameCountAt
        have : ((obs i).2 == (obs i).1) = false := by
          simp [beq_iff_eq, h]
        simp [this]
      · have hcons01 : cons = 0 ∨ cons = 1 := by omega
        rcases hcons01 with hc | hc <;> subst hc
        · rcases hexact with he | he
          · have hi0 : i = 0 := he.symm
            subst hi0
            unfold settleBreakAt
            simp
          · unfold settleBreakAt
            have harith : i - 1 - 0 = i - 1 := by omega
            rw [harith] at he
            simp [he]
        · rcases hexact with he | he
          · have hi1 : i = 1 := he.symm
            subst hi1
            unfold settleBreakAt
            simp
          · unfold settleBreakAt
            have harith : i - 1 - 1 = i - 2 := by omega
            rw [harith] at he
            simp [he]
    unfold scrollLoopAux
    by_cases hsame : (obs i).2 = (obs i).1
    · rw [if_pos hsame]
      by_cases hc3 : 3 ≤ cons + 1
      · rw [if_pos hc3]
        have hcons2 : cons = 2 := by omega
        have hbrk : settleBreakAt obs i = true := by
          unfold settleBreakAt
          have hi2 : 2 ≤ i := by omega
          have hs2 : sameCountAt obs (i - 2) = true := by
            have := hrun 1 (by omega)
            have harith : i - 1 - 1 = i - 2 := by omega
            rwa [harith] at this
          have hs1 : sameCountAt obs (i - 1) = true := by
            have := hrun 0 (by omega)
            have harith : i - 1 - 0 = i - 1 := by omega
            rwa [harith] at this
          have hs0 : sameCountAt obs i = true := by
            simp [sameCountAt, beq_iff_eq, hsame]
          simp [hi2, hs2, hs1, hs0]
        rw [firstSettleBreak_cons_true obs i r hbrk]
      · rw [if_neg hc3]
        have hbrk : settleBreakAt obs i = false :=
          hbreak_of_not (Or.inr (by omega))
        have hrec := ih (i + 1) (cons + 1) (some (obs i).2)
          (by omega) (by omega)
          (by
            intro t ht
            cases t with
            | zero =>
              have harith : i + 1 - 1 - 0 = i := by omega
              rw [harith]
              simp [sameCountAt, beq_iff_eq, hsame]
            | succ t' =>
              have harith : i + 1 - 1 - (t' + 1) = i - 1 - t' := by omega
              rw [harith]
              exact hrun t' (by omega))
          (by
            rcases hexact with he | he
            · left; omega
            · right
              have harith : i + 1 - 1 - (cons + 1) = i - 1 - cons := by omega
              rw [harith]
              exact he)
        rw [hrec, firstSettleBreak_cons_false obs i r hbrk]
        rcases hfb : firstSettleBreak obs (i + 1) r with _ | j
        · change i + 1 + r = i + (r + 1)
          omega
        · rfl
    · rw [if_neg hsame]
      have hbrk : settleBreakAt obs i = false :=
        hbreak_of_not (Or.inl hsame)
      have hrec := ih (i + 1) 0 (some (obs i).2)
        (by omega) (by omega)
        (by intro t ht; omega)
        (by
          right
          have harith : i + 1 - 1 - 0 = i := by omega
          rw [harith]
          simp [sameCountAt, beq_iff_eq, hsame])
      rw [hrec, firstSettleBreak_cons_false obs i r hbrk]
      rcases hfb : firstSettleBreak obs (i + 1) r with _ | j
      · change i + 1 + r = i + (r + 1)
        omega
      · rfl

/-- Auxiliary: whenever the loop has run at least one iteration, the
reported last count is the `new_count` observation of the final
iteration. -/
theorem scrollLoopAux_lastCount (obs : Nat → Nat × Nat) :
    ∀ (r i cons : Nat) (last : Option Nat),
      (0 < i → last = some ((obs (i - 1)).2)) →
      (0 < (scrollLoopAux obs i r cons last).1 →
        (scrollLoopAux obs i r cons last).2
          = some ((obs ((scrollLoopAux obs i r cons last).1 - 1)).2)) := by
  intro r
  induction r with
  | zero => intro i cons last hlast; exact hlast
  | succ r ih =>
    intro i cons last hlast
    unfold scrollLoopAux
    by_cases hsame : (obs i).2 = (obs i).1
    · rw [if_pos hsame]
      by_cases hc3 : 3 ≤ cons + 1
      · rw [if_pos hc3]
        intro _
        simp
      · rw [if_neg hc3]
        exact ih (i + 1) (cons + 1) (some (obs i).2) (by intro _; simp)
    · rw [if_neg hsame]
      exact ih (i + 1) 0 (some (obs i).2) (by intro _; simp)

/-- C3 (amended): `scroll_to_load_all` performs scroll attempts until
three consecutive attempts produce no change in the counted item number
or the ceiling of 20 attempts is reached, then scrolls the container
back to its top origin (`scrollTop = 0`); the final materialized item
count is the last `new_count` observation, but the Python function body
ends without a `return` statement, so the call itself returns `None`
rather than that count. -/
theorem scroll_to_load_all_spec (obs : Nat → Nat × Nat) :
    (scroll_to_load_all obs).iterations = specScrollIterations obs 20
    ∧ (scroll_to_load_all obs).iterations ≤ 20
    ∧ (scroll_to_load_all obs).finalScrollTop = 0
    ∧ (scroll_to_load_all obs).retVal = none
    ∧ (0 < (scroll_to_load_all obs).iterations →
        (scroll_to_load_all obs).lastCount
          = some ((obs ((scroll_to_load_all obs).iterations - 1)).2)) := by
  have hiter : (scroll_to_load_all obs).iterations = specScrollIterations obs 20 := by
    show (scrollLoopAux obs 0 20 0 none).1 = specScrollIterations obs 20
    rw [scrollLoopAux_iterations obs 20 0 0 none (by omega) (by omega)
      (by intro t ht; omega) (Or.inl rfl)]
    rfl
  refine ⟨hiter, ?_, rfl, rfl, ?_⟩
  · rw [hiter]
    unfold specScrollIterations
    rcases hfb : firstSettleBreak obs 0 20 with _ | j
    · simp
    · have := firstSettleBreak_lt obs 20 0 j hfb
      simp
      omega
  · exact scrollLoopAux_lastCount obs 20 0 0 none (by intro h; omega)

/-- C3 (counterexample): for the environment in which every observation
reports an unchanged count of 5 items, the loop settles after exactly 3
attempts — the last materialized item count is 5 — yet the call's return
value is `None`, not that item count, refuting "returns the final
materialized item count". -/
theorem scroll_to_load_all_returns_no_count :
    (scroll_to_load_all (fun _ => (5, 5))).iterations = 3
    ∧ (scroll_to_load_all (fun _ => (5, 5))).lastCount = some 5
    ∧ (scroll_to_load_all (fun _ => (5, 5))).retVal = none
    ∧ (scroll_to_load_all (fun _ => (5, 5))).retVal ≠ some 5 := by
  decide

/-- Witness environment: a constantly-settled list of 7 items. -/
def exScrollObs : Nat → Nat × Nat := fun _ => (7, 7)

/-- Witness for the amended C3: on the constantly-settled environment at
least one iteration ran, and the reported last count is the final
iteration's `new_count` observation. -/
theorem scroll_to_load_all_spec_witness :
    (scroll_to_load_all exScrollObs).lastCount
      = some ((exScrollObs ((scroll_to_load_all exScrollObs).iterations - 1)).2) :=
  (scroll_to_load_all_spec exScrollObs).2.2.2.2 (by decide)

/-! ## C4 — the filter-selection state machine `select_county`

Model of `select_county(driver, county_name, timeout=30)` from
`final_working_downloader_auto.py` (lines 1050–1172).  Before the loop
the function switches into the Power BI iframe and returns `False` at
once if that fails.  The `while time.time() < end` loop then runs one
selection cycle per iteration; every continuing path of the body passes
through a `time.sleep(1)` (the not-found and exception branches
`continue` after `time.sleep(1)`, and the fall-through retry path ends
in `time.sleep(1)`), so each continuing cycle consumes at least one
second plus whatever bounded time the body's own waits took (modelled as
`extra` seconds supplied by the environment).  Time is in whole
seconds.
-/

/-- Outcome of one cycle of the selection loop, as decided by the
environment: which branch of the body the cycle took. -/
inductive CycleOutcome where
  /-- The `switch_to_powerbi_iframe` call at the top of the body failed;
  sleep one second and start the next cycle. -/
  | noIframe
  /-- The `find_county_slicer` call found nothing; sleep one second and
  start the next cycle. -/
  | noSlicer
  /-- The pre-check found the target already in the displayed value;
  break with success. -/
  | alreadySelected
  /-- The click/clear block threw; sleep one second and start the next
  cycle. -/
  | clickError
  /-- The cycle's click was delivered and the selection verified; break
  with success. -/
  | verified
  /-- The cycle completed but verification failed; sleep one second and
  retry. -/
  | notVerified
  deriving DecidableEq, Repr

/-- Observable outcome of a `select_county` call: its boolean return
value, the clock value when it returns, and the number of loop cycles
executed. -/
structure SelectResult where
  success : Bool
  finalClock : Nat
  cycles : Nat
  deriving DecidableEq, Repr

/-- The retry loop of `select_county`: while the clock is before the
deadline, run one cycle; the environment maps the cycle number to its
outcome and to the extra seconds the body consumed beyond the mandatory
one-second sleep of every continuing path. -/
def selectLoop (env : Nat → CycleOutcome × Nat) (endT : Nat) :
    Nat → Nat → SelectResult
  | clock, cycles =>
    if _h : clock < endT then
      match (env cycles).1 with
      | .alreadySelected => ⟨true, clock + (env cycles).2, cycles + 1⟩
      | .verified => ⟨true, clock + (env cycles).2, cycles + 1⟩
      | _ => selectLoop env endT (clock + (env cycles).2 + 1) (cycles + 1)
    else ⟨false, clock, cycles⟩
  termination_by clock => endT - clock
  decreasing_by omega

/-- Model of `select_county`: return `False` immediately when the
initial iframe switch fails, otherwise run the retry loop against the
deadline `start + timeout`. -/
def select_county (env : Nat → CycleOutcome × Nat) (iframeAtStart : Bool)
    (start timeout : Nat) : SelectResult :=
  if iframeAtStart then selectLoop env (start + timeout) start 0
  else ⟨false, start, 0⟩

/-- Auxiliary: one continuing step of the loop when the cycle's outcome
is `noSlicer`. -/
theorem selectLoop_cont (env : Nat → CycleOutcome × Nat)
    (endT clock cycles : Nat) (h : clock < endT)
    (ho : (env cycles).1 = CycleOutcome.noSlicer) :
    selectLoop env endT clock cycles
      = selectLoop env endT (clock + (env cycles).2 + 1) (cycles + 1) := by
  rw [selectLoop]
  rw [dif_pos h, ho]

/-- Auxiliary loop invariant: when no cycle can break with success and
each cycle body consumes at most `B + 1` seconds, the loop returns
failure, overshoots the deadline by at most one body duration, and runs
at most one cycle per second of remaining budget. -/
theorem selectLoop_timeout (env : Nat → CycleOutcome × Nat)
    (endT B : Nat)
    (hB : ∀ i, (env i).2 ≤ B)
    (hns : ∀ i, (env i).1 = CycleOutcome.noSlicer) :
    ∀ clock cycles, clock ≤ endT + B →
      (selectLoop env endT clock cycles).success = false
      ∧ (selectLoop env endT clock cycles).finalClock ≤ endT + B
      ∧ (selectLoop env endT clock cycles).cycles ≤ cycles + (endT - clock) := by
  have main : ∀ n clock cycles, endT - clock ≤ n → clock ≤ endT + B →
      (selectLoop env endT clock cycles).success = false
      ∧ (selectLoop env endT clock cycles).finalClock ≤ endT + B
      ∧ (selectLoop env endT clock cycles).cycles ≤ cycles + (endT - clock) := by
    intro n
    induction n with
    | zero =>
      intro clock cycles hn hcl
      have hge : ¬ clock < endT := by omega
      rw [selectLoop]
      rw [dif_neg hge]
      exact ⟨rfl, by simpa using hcl, by simp⟩
    | succ n ihn =>
      intro clock cycles hn hcl
      by_cases h : clock < endT
      · rw [selectLoop_cont env endT clock cycles h (hns cycles)]
        have hstep := hB cycles
        have hrec := ihn (clock + (env cycles).2 + 1) (cycles + 1)
          (by omega) (by omega)
        exact ⟨hrec.1, hrec.2.1, by have := hrec.2.2; omega⟩
      · rw [selectLoop]
        rw [dif_neg h]
        exact ⟨rfl, by simpa using hcl, by simp⟩
  intro clock cycles hcl
  exact main (endT - clock) clock cycles (le_refl _) hcl

/-- C4: for every environment in which the filter control is never
located, `select_county` with deadline `start + timeout` terminates with
a boolean failure: it returns `False`, its return instant exceeds the
deadline by at most one loop-body duration (`B` bounds the body's own
waits beyond the mandatory one-second sleep — the scheduling tolerance),
and it runs at most `timeout` retry cycles, so it never blocks
indefinitely. -/
theorem select_county_timeout (env : Nat → CycleOutcome × Nat)
    (iframeAtStart : Bool) (start timeout B : Nat)
    (hB : ∀ i, (env i).2 ≤ B)
    (hns : ∀ i, (env i).1 = CycleOutcome.noSlicer) :
    (select_county env iframeAtStart start timeout).success = false
    ∧ (select_county env iframeAtStart start timeout).finalClock
        ≤ start + timeout + B
    ∧ (select_county env iframeAtStart start timeout).cycles ≤ timeout := by
  unfold select_county
  by_cases hif : iframeAtStart = true
  · rw [if_pos hif]
    have := selectLoop_timeout env (start + timeout) B hB hns start 0 (by omega)
    exact ⟨this.1, this.2.1, by have := this.2.2; omega⟩
  · rw [if_neg hif]
    refine ⟨rfl, ?_, ?_⟩
    · change start ≤ start + timeout + B
      omega
    · change 0 ≤ timeout
      omega

/-- Witness environment for C4: the slicer is never found and each cycle
body consumes no extra time. -/
def exNoSlicerEnv : Nat → CycleOutcome × Nat := fun _ => (CycleOutcome.noSlicer, 0)

/-- Witness for C4 at the default 30-second timeout: with a control that
can never be located, `select_county` returns failure by the deadline
and runs at most 30 cycles. -/
theorem select_county_timeout_witness :
    (select_county exNoSlicerEnv true 0 30).success = false
    ∧ (select_county exNoSlicerEnv true 0 30).finalClock ≤ 0 + 30 + 0
    ∧ (select_county exNoSlicerEnv true 0 30).cycles ≤ 30 :=
  select_county_timeout exNoSlicerEnv true 0 30 0
    (fun _ => Nat.le_refl 0) (fun _ => rfl)

/-! ## C5 — selection verification

Model of `current_selected_value(driver)` (lines 453–463) and
`wait_for_selected_value(driver, county_name, previous_value="",
timeout=6)` (lines 466–476) of `final_working_downloader_auto.py`.  The
driver state at poll `k` is the list of slicer dropdown-menu elements
the CSS query returns, in document order; the wait loop is given fuel
(the number of `time.time() < end` checks its timeout allows).
-/

/-- One element matched by the query for the slicer's dropdown menu:
whether `is_displayed()` holds and its `.text`. -/
structure MenuElem where
  displayed : Bool
  text : String
  deriving DecidableEq, Repr

/-- Model of `current_selected_value`: the first displayed element whose
stripped text is non-empty yields that text; otherwise the empty
string. -/
def current_selected_value : List MenuElem → String
  | [] => ""
  | el :: rest =>
    if el.displayed then
      if pyStrip el.text ≠ "" then pyStrip el.text
      else current_selected_value rest
    else current_selected_value rest

/-- Model of `wait_for_selected_value`: at poll `k` read the displayed
value; if it is non-empty (Python truthiness) and contains the lowered
target, succeed; else if a previous value was given and the non-empty
displayed value differs from it, fail immediately; otherwise sleep and
poll again until the fuel (timeout) runs out. -/
def wait_for_selected_value (obs : Nat → List MenuElem)
    (county prev : String) : Nat → Nat → Bool
  | _, 0 => false
  | k, fuel + 1 =>
    let selected := current_selected_value (obs k)
    if selected ≠ "" ∧ strContainsCI selected county = true then true
    else if prev ≠ "" ∧ selected ≠ "" ∧ selected ≠ prev then false
    else wait_for_selected_value obs county prev (k + 1) fuel

/-- Poll `k` satisfies the success condition: non-empty displayed value
containing the target case-insensitively. -/
def succPollAt (obs : Nat → List MenuElem) (county : String) (k : Nat) : Prop :=
  current_selected_value (obs k) ≠ ""
    ∧ strContainsCI (current_selected_value (obs k)) county = true

/-- Poll `k` satisfies the change-detected condition: a previous value
was supplied and the non-empty displayed value differs from it. -/
def revertPollAt (obs : Nat → List MenuElem) (prev : String) (k : Nat) : Prop :=
  prev ≠ "" ∧ current_selected_value (obs k) ≠ ""
    ∧ current_selected_value (obs k) ≠ prev

instance (obs : Nat → List MenuElem) (county : String) (k : Nat) :
    Decidable (succPollAt obs county k) := by
  unfold succPollAt
  infer_instance

instance (obs : Nat → List MenuElem) (prev : String) (k : Nat) :
    Decidable (revertPollAt obs prev k) := by
  unfold revertPollAt
  infer_instance

/-- C5 (amended): the verification wait succeeds exactly when some poll
within the timeout observes a non-empty displayed value that contains
the target as a case-insensitive substring, and every earlier poll
either also satisfied that success condition or did not observe a
non-empty displayed value different from the supplied previous value (a
poll observing such a change — e.g. a value reverted to "All" — makes
the wait report failure immediately, triggering a retry). -/
theorem wait_for_selected_value_iff (obs : Nat → List MenuElem)
    (county prev : String) (k fuel : Nat) :
    wait_for_selected_value obs county prev k fuel = true ↔
      ∃ j, k ≤ j ∧ j < k + fuel ∧ succPollAt obs county j
        ∧ ∀ i, k ≤ i → i < j →
            (succPollAt obs county i ∨ ¬ revertPollAt obs prev i) := by
  induction fuel generalizing k with
  | zero =>
    simp only [wait_for_selected_value]
    constructor
    · intro h; cases h
    · rintro ⟨j, hkj, hjlt, _, _⟩
      omega
  | succ fuel ih =>
    constructor
    · intro h
      rw [wait_for_selected_value] at h
      by_cases hsucc : current_selected_value (obs k) ≠ ""
          ∧ strContainsCI (current_selected_value (obs k)) county = true
      · exact ⟨k, le_refl k, by omega, hsucc, fun i hki hik => absurd hik (by omega)⟩
      · rw [if_neg hsucc] at h
        by_cases hrev : prev ≠ "" ∧ current_selected_value (obs k) ≠ ""
            ∧ current_selected_value (obs k) ≠ prev
        · rw [if_pos hrev] at h
          cases h
        · rw [if_neg hrev] at h
          obtain ⟨j, hkj, hjlt, hs, hall⟩ := (ih (k + 1)).mp h
          refine ⟨j, by omega, by omega, hs, ?_⟩
          intro i hki hij
          by_cases hik : i = k
          · subst hik
            exact Or.inr hrev
          · exact hall i (by omega) hij
    · rintro ⟨j, hkj, hjlt, hs, hall⟩
      rw [wait_for_selected_value]
      by_cases hsucc : current_selected_value (obs k) ≠ ""
          ∧ strContainsCI (current_selected_value (obs k)) county = true
      · rw [if_pos hsucc]
      · rw [if_neg hsucc]
        have hjk : k < j := by
          rcases Nat.lt_or_ge k j with hlt | hge
          · exact hlt
          · exfalso
            have : j = k := by omega
            subst this
            exact hsucc hs
        have hrev : ¬ (prev ≠ "" ∧ current_selected_value (obs k) ≠ ""
            ∧ current_selected_value (obs k) ≠ prev) := by
          rcases hall k (le_refl k) hjk with hsk | hnr
          · exact absurd hsk hsucc
          · exact hnr
        rw [if_neg hrev]
        exact (ih (k + 1)).mpr
          ⟨j, by omega, by omega, hs, fun i hki hij => hall i (by omega) hij⟩

/-- C5 (counterexample): with an empty target label and no displayed
value, the (empty) target trivially appears as a case-insensitive
substring of the displayed value text, yet the verification wait times
out with failure — refuting "succeeds exactly when the target label
appears as a case-insensitive substring of the displayed value". -/
theorem wait_for_selected_value_empty_target :
    strContainsCI (current_selected_value []) "" = true
    ∧ (∀ k, k < 5 → current_selected_value ((fun _ => []) k : List MenuElem) = "")
    ∧ wait_for_selected_value (fun _ => []) "" "" 0 5 = false := by
  refine ⟨by decide, ?_, by decide⟩
  intro k _
  rfl

/-- Sanity check mirroring the spec's example: target "Alameda" against
displayed "Alameda County" verifies successfully. -/
theorem wait_for_selected_value_alameda_example :
    wait_for_selected_value (fun _ => [⟨true, "Alameda County"⟩]) "Alameda" "" 0 3
      = true := by
  decide

/-- Sanity check mirroring the spec's example: after targeting
"Alameda" from previous value "Santa Clara", a displayed value reverted
to "All" makes the wait report failure (on the first poll, well before
the timeout). -/
theorem wait_for_selected_value_revert_example :
    wait_for_selected_value (fun _ => [⟨true, "All"⟩]) "Alameda" "Santa Clara" 0 3
      = false := by
  decide

/-! ## C7 — the scrollable container locator

Model of `_find_scrollable_container(driver)` from
`auto_download_county_file_sharepoint.py` (lines 85–129).  The anchor
input is `none` when no file-row element exists (the script then returns
`null` without consulting the fallback), else the chain of ancestors of
the row from `parentElement` upward, excluding `document.body` and
`document.documentElement` where the walk stops.  The fallback input is
the concatenation, in selector order, of the candidate lists of the
three known structural selectors.
-/

/-- One DOM node as seen by the locator: its computed `overflowY` style
and its `scrollHeight` / `clientHeight`. -/
structure ScrollNode where
  overflowY : String
  scrollHeight : Nat
  clientHeight : Nat
  deriving DecidableEq, Repr

/-- The walk's acceptance test: `overflowY` is `auto`, `scroll` or
`overlay` and the content overflows the visible height. -/
def isScrollableAncestor (n : ScrollNode) : Bool :=
  (n.overflowY == "auto" || n.overflowY == "scroll"
      || n.overflowY == "overlay")
    && decide (n.clientHeight < n.scrollHeight)

/-- The upward walk over the ancestor chain: first ancestor passing the
acceptance test. -/
def walkUpChain : List ScrollNode → Option ScrollNode
  | [] => none
  | el :: rest =>
    if isScrollableAncestor el then some el else walkUpChain rest

/-- The fallback scan over the structural-selector candidates: first
candidate whose `scrollHeight` exceeds its `clientHeight` by more than
50. -/
def fallbackScan : List ScrollNode → Option ScrollNode
  | [] => none
  | c :: rest =>
    if c.clientHeight + 50 < c.scrollHeight then some c
    else fallbackScan rest

/-- Model of `_find_scrollable_container`: `none` when no anchor row
exists; otherwise the first scrollable ancestor of the walk, falling
back to the structural-selector scan; `none` (never an error) when
nothing qualifies. -/
def find_scrollable_container (anchorChain : Option (List ScrollNode))
    (fallback : List ScrollNode) : Option ScrollNode :=
  match anchorChain with
  | none => none
  | some chain =>
    match walkUpChain chain with
    | some el => some el
    | none => fallbackScan fallback

/-- Locator specification, written from the spec's words: return the
first ancestor in the upward walk whose `overflowY` is auto, scroll or
overlay and whose `scrollHeight` exceeds its `clientHeight`; if no such
ancestor exists, accept a fallback element only when its scrollable
excess (`scrollHeight` minus `clientHeight`) exceeds 50 px; and when
nothing qualifies, report "not found" rather than raising. -/
def specContainerLocator (anchorChain : Option (List ScrollNode))
    (fallback : List ScrollNode) : Option ScrollNode :=
  match anchorChain with
  | none => none
  | some chain =>
    match chain.find? (fun n =>
        (n.overflowY == "auto" || n.overflowY == "scroll"
            || n.overflowY == "overlay")
          && decide (n.clientHeight < n.scrollHeight)) with
    | some el => some el
    | none =>
      fallback.find? (fun c => decide (50 < c.scrollHeight - c.clientHeight))

/-- Auxiliary: the upward walk is the first match of its acceptance
test. -/
theorem walkUpChain_eq_find (chain : List ScrollNode) :
    walkUpChain chain = chain.find? isScrollableAncestor := by
  induction chain with
  | nil => rfl
  | cons el rest ih =>
    unfold walkUpChain
    rw [List.find?_cons]
    by_cases h : isScrollableAncestor el = true
    · rw [if_pos h, h]
    · rw [if_neg h]
      rw [Bool.not_eq_true] at h
      rw [h, ih]

/-- Auxiliary: the fallback scan is the first candidate whose excess
exceeds 50, the two formulations of the threshold being equivalent. -/
theorem fallbackScan_eq_find (fallback : List ScrollNode) :
    fallbackScan fallback
      = fallback.find? (fun c => decide (50 < c.scrollHeight - c.clientHeight)) := by
  induction fallback with
  | nil => rfl
  | cons c rest ih =>
    unfold fallbackScan
    rw [List.find?_cons]
    by_cases h : c.clientHeight + 50 < c.scrollHeight
    · rw [if_pos h]
      have : decide (50 < c.scrollHeight - c.clientHeight) = true := by
        simp only [decide_eq_true_eq]
        omega
      rw [this]
    · rw [if_neg h]
      have : decide (50 < c.scrollHeight - c.clientHeight) = false := by
        simp only [decide_eq_false_iff_not]
        omega
      rw [this, ih]

/-- C7: the scrollable-container locator returns the first ancestor of
the upward walk whose `overflowY` is auto/scroll/overlay and whose
`scrollHeight` exceeds its `clientHeight`; when no ancestor qualifies it
accepts the first fallback structural-selector element whose scrollable
excess exceeds 50 px; and when nothing qualifies (or no anchor row
exists) it returns "not found" (`none`) rather than raising — exactly
the behaviour the specification prescribes. -/
theorem find_scrollable_container_spec (anchorChain : Option (List ScrollNode))
    (fallback : List ScrollNode) :
    find_scrollable_container anchorChain fallback
      = specContainerLocator anchorChain fallback := by
  rcases anchorChain with _ | chain
  · rfl
  · have hw := walkUpChain_eq_find chain
    unfold isScrollableAncestor at hw
    show (match walkUpChain chain with
        | some el => some el
        | none => fallbackScan fallback)
      = (match chain.find? (fun n =>
            (n.overflowY == "auto" || n.overflowY == "scroll"
                || n.overflowY == "overlay")
              && decide (n.clientHeight < n.scrollHeight)) with
        | some el => some el
        | none =>
          fallback.find? (fun c => decide (50 < c.scrollHeight - c.clientHeight)))
    rw [hw, fallbackScan_eq_find]

/-! ## C8 / C10 — the link harvester `get_sharepoint_links_from_powerbi`

Model of `get_sharepoint_links_from_powerbi(driver)` from
`final_working_downloader.py` (lines 49–94).  The function scans the
page's iframes for one whose `src` contains `app.powerbi.com`; with no
such iframe it returns two empty lists without switching frames (the
`for`/`else` branch).  Having switched into the iframe, the injected
script classifies every anchor whose address contains the SharePoint
image pattern by the `column-index` / `aria-colindex` attributes of its
closest grid cell; the `try`/`except` around the script execution
switches back to the default content on both the success and the
exception path (`scriptOk` records whether `execute_script` raised).
-/

/-- The automation driver's frame context. -/
inductive FrameCtx where
  | top
  | powerbi
  | otherFrame
  deriving DecidableEq, Repr

/-- One anchor matched by the extraction script: its address and the
`column-index` / `aria-colindex` attributes of its closest
`role="gridcell"` ancestor (`none` when there is no such cell or the
attribute is absent). -/
structure AnchorElem where
  href : String
  cellColumnIndex : Option String
  cellAriaColIndex : Option String
  deriving DecidableEq, Repr

/-- County classification: `column-index="2"` and `aria-colindex="4"`. -/
def isCountyCell (a : AnchorElem) : Bool :=
  a.cellColumnIndex == some "2" && a.cellAriaColIndex == some "4"

/-- City classification: `column-index="3"` and `aria-colindex="5"`. -/
def isCityCell (a : AnchorElem) : Bool :=
  a.cellColumnIndex == some "3" && a.cellAriaColIndex == some "5"

/-- The harvest result: the two ordered link groups. -/
structure Harvest where
  county : List String
  city : List String
  deriving DecidableEq, Repr

/-- The extraction script's `forEach` classification: county cells push
onto `countyLinks`, city cells onto `cityLinks`, anything else is
dropped. -/
def classifyLinks : List AnchorElem → Harvest
  | [] => ⟨[], []⟩
  | a :: rest =>
    let r := classifyLinks rest
    if isCountyCell a then ⟨a.href :: r.county, r.city⟩
    else if isCityCell a then ⟨r.county, a.href :: r.city⟩
    else r

/-- Address pattern of the `querySelectorAll` filter
`a[href*="carorg.sharepoint.com/:i:"]`. -/
def sharepointImageHref (a : AnchorElem) : Bool :=
  strContains a.href "carorg.sharepoint.com/:i:"

/-- Search for a Power BI iframe among the page's iframe `src`
attributes. -/
def hasPowerbiIframe (iframeSrcs : List (Option String)) : Bool :=
  iframeSrcs.any fun src? =>
    match src? with
    | some s => strContains s "app.powerbi.com"
    | none => false

/-- Model of `get_sharepoint_links_from_powerbi`: returns the harvest
result together with the driver's frame context after the call.  With
no Power BI iframe the context is left unchanged and two empty lists are
returned; otherwise the driver switches into the iframe and, whether
the extraction script succeeds or raises, switches back to the default
content before returning. -/
def get_sharepoint_links_from_powerbi (ctx : FrameCtx)
    (iframeSrcs : List (Option String)) (scriptOk : Bool)
    (anchors : List AnchorElem) : Harvest × FrameCtx :=
  if hasPowerbiIframe iframeSrcs then
    if scriptOk then
      (classifyLinks (anchors.filter sharepointImageHref), FrameCtx.top)
    else
      (⟨[], []⟩, FrameCtx.top)
  else
    (⟨[], []⟩, ctx)

/-- Auxiliary: no anchor is classified both as a county cell and as a
city cell. -/
theorem county_city_disjoint (a : AnchorElem) :
    isCountyCell a = true → isCityCell a = false := by
  unfold isCountyCell isCityCell
  intro h
  simp only [Bool.and_eq_true, beq_iff_eq] at h
  simp [h.1]

/-- Auxiliary: the classification is the pair of in-order filters of the
two cell predicates. -/
theorem classifyLinks_eq_filters (l : List AnchorElem) :
    classifyLinks l
      = ⟨(l.filter isCountyCell).map AnchorElem.href,
         (l.filter isCityCell).map AnchorElem.href⟩ := by
  induction l with
  | nil => rfl
  | cons a rest ih =>
    unfold classifyLinks
    rw [List.filter_cons, List.filter_cons]
    by_cases hco : isCountyCell a = true
    · rw [if_pos hco, hco, county_city_disjoint a hco, ih]
      simp
    · rw [if_neg hco]
      rw [Bool.not_eq_true] at hco
      rw [hco]
      by_cases hci : isCityCell a = true
      · rw [if_pos hci, hci, ih]
        simp
      · rw [Bool.not_eq_true] at hci
        rw [if_neg (by simp [hci]), hci, ih]
        simp

/-- C8: the harvester classifies each pattern-matching anchor by its
grid-cell column attributes into the two ordered groups — county links
from `column-index` 2 / `aria-colindex` 4, city links from
`column-index` 3 / `aria-colindex` 5, each in page order — and always
returns the two sequences without raising: with no Power BI iframe, or
with a failing extraction script, it returns two empty sequences. -/
theorem get_sharepoint_links_classification (ctx : FrameCtx)
    (iframeSrcs : List (Option String)) (scriptOk : Bool)
    (anchors : List AnchorElem) :
    (hasPowerbiIframe iframeSrcs = false →
      (get_sharepoint_links_from_powerbi ctx iframeSrcs scriptOk anchors).1
        = ⟨[], []⟩)
    ∧ (scriptOk = false →
      (get_sharepoint_links_from_powerbi ctx iframeSrcs scriptOk anchors).1
        = ⟨[], []⟩)
    ∧ (hasPowerbiIframe iframeSrcs = true → scriptOk = true →
      (get_sharepoint_links_from_powerbi ctx iframeSrcs scriptOk anchors).1.county
          = ((anchors.filter sharepointImageHref).filter isCountyCell).map
              AnchorElem.href
        ∧ (get_sharepoint_links_from_powerbi ctx iframeSrcs scriptOk anchors).1.city
          = ((anchors.filter sharepointImageHref).filter isCityCell).map
              AnchorElem.href) := by
  refine ⟨?_, ?_, ?_⟩
  · intro hni
    unfold get_sharepoint_links_from_powerbi
    rw [hni]
    rfl
  · intro hso
    subst hso
    unfold get_sharepoint_links_from_powerbi
    by_cases hif : hasPowerbiIframe iframeSrcs = true
    · rw [if_pos hif]
      rfl
    · rw [if_neg hif]
  · intro hif hso
    subst hso
    unfold get_sharepoint_links_from_powerbi
    rw [if_pos hif, if_pos rfl, classifyLinks_eq_filters]
    exact ⟨rfl, rfl⟩

/-- Witness iframe list holding one Power BI iframe. -/
def exIframeSrcs : List (Option String) :=
  [none, some "https://app.powerbi.com/view?r=abc"]

/-- Witness anchors: a county-cell link, a city-cell link, a link with
no grid cell and a non-matching address. -/
def exAnchors : List AnchorElem :=
  [⟨"https://carorg.sharepoint.com/:i:/county1", some "2", some "4"⟩,
   ⟨"https://carorg.sharepoint.com/:i:/city1", some "3", some "5"⟩,
   ⟨"https://carorg.sharepoint.com/:i:/stray", none, none⟩,
   ⟨"https://example.com/other", some "2", some "4"⟩]

/-- Witness for C8: on a concrete page the harvested county and city
sequences are exactly the in-order filters of the matching anchors. -/
theorem get_sharepoint_links_classification_witness :
    (get_sharepoint_links_from_powerbi FrameCtx.top exIframeSrcs true exAnchors).1.county
        = ((exAnchors.filter sharepointImageHref).filter isCountyCell).map
            AnchorElem.href
    ∧ (get_sharepoint_links_from_powerbi FrameCtx.top exIframeSrcs true exAnchors).1.city
        = ((exAnchors.filter sharepointImageHref).filter isCityCell).map
            AnchorElem.href :=
  (get_sharepoint_links_classification FrameCtx.top exIframeSrcs true exAnchors).2.2
    (by decide) rfl

/-- C10: every call that switches into the Power BI iframe (i.e. one is
present among the page's iframes) leaves the driver context at the
default (top-level) content when it returns, on both the success path
and the exception path of the extraction script. -/
theorem get_sharepoint_links_restores_default (ctx : FrameCtx)
    (iframeSrcs : List (Option String)) (scriptOk : Bool)
    (anchors : List AnchorElem)
    (hswitch : hasPowerbiIframe iframeSrcs = true) :
    (get_sharepoint_links_from_powerbi ctx iframeSrcs scriptOk anchors).2
      = FrameCtx.top := by
  unfold get_sharepoint_links_from_powerbi
  rw [if_pos hswitch]
  by_cases hso : scriptOk = true
  · rw [if_pos hso]
  · rw [if_neg hso]

/-- Witness for C10: on a page with a Power BI iframe and a failing
extraction script, starting from a non-default frame context, the call
still returns with the context restored to the default content. -/
theorem get_sharepoint_links_restores_default_witness :
    hasPowerbiIframe exIframeSrcs = true
    ∧ (get_sharepoint_links_from_powerbi FrameCtx.otherFrame exIframeSrcs false []).2
        = FrameCtx.top :=
  ⟨by decide,
    get_sharepoint_links_restores_default FrameCtx.otherFrame exIframeSrcs false []
      (by decide)⟩

/-! ## C9 — the target list `load_target_counties`

Model of `DEFAULT_COUNTIES` (lines 36–41) and `load_target_counties()`
(lines 46–52) of `final_working_downloader_auto.py`.  The input is the
value of `os.getenv("SALA_COUNTIES", "")`, i.e. the environment
variable's value with the unset case reading as the empty string.
-/

/-- The four default county names, in their fixed order. -/
def DEFAULT_COUNTIES : List String :=
  ["Santa Clara", "San Mateo", "Alameda", "San Francisco"]

/-- Model of `load_target_counties`: strip the environment value; if
non-empty, split it on commas, strip each segment and drop the empty
ones, else use the defaults; pair each name with its 1-based position
via `enumerate`. -/
def load_target_counties (envSalaCounties : String) : List (String × Nat) :=
  let raw := pyStrip envSalaCounties
  let names :=
    if raw ≠ "" then ((pySplit raw).map pyStrip).filter (fun n => n ≠ "")
    else DEFAULT_COUNTIES
  names.enum.map fun p => (p.2, p.1 + 1)

/-- Pairing specification, written from the claim's words: each name of
the list paired with its position counted from `k`. -/
def pairWithPositions : List String → Nat → List (String × Nat)
  | [], _ => []
  | n :: rest, k => (n, k) :: pairWithPositions rest (k + 1)

/-- Auxiliary: the `enumerate`-based pairing of the source equals the
positional pairing of the claim. -/
theorem enumFrom_pairWithPositions (l : List String) :
    ∀ k, (List.enumFrom k l).map (fun p => (p.2, p.1 + 1))
      = pairWithPositions l (k + 1) := by
  induction l with
  | nil => intro k; rfl
  | cons a t ih =>
    intro k
    show (a, k + 1) :: (List.enumFrom (k + 1) t).map (fun p => (p.2, p.1 + 1))
      = (a, k + 1) :: pairWithPositions t (k + 2)
    rw [ih (k + 1)]

/-- C9: when the `SALA_COUNTIES` override is non-empty after trimming,
`load_target_counties` returns exactly the comma-separated names in
order, each stripped of surrounding whitespace, with empty segments
dropped and each name paired with its 1-based position; when it is
unset or blank, the four default county names are returned in their
fixed order paired with positions 1 through 4. -/
theorem load_target_counties_spec (s : String) :
    (pyStrip s = "" →
      load_target_counties s
        = [("Santa Clara", 1), ("San Mateo", 2),
           ("Alameda", 3), ("San Francisco", 4)])
    ∧ (pyStrip s ≠ "" →
      load_target_counties s
        = pairWithPositions
            (((pySplit (pyStrip s)).map pyStrip).filter (fun n => n ≠ "")) 1) := by
  constructor
  · intro hempty
    unfold load_target_counties
    rw [hempty]
    rfl
  · intro hne
    show ((if pyStrip s ≠ "" then
          ((pySplit (pyStrip s)).map pyStrip).filter (fun n => n ≠ "")
        else DEFAULT_COUNTIES).enum.map fun p => (p.2, p.1 + 1))
      = pairWithPositions
          (((pySplit (pyStrip s)).map pyStrip).filter (fun n => n ≠ "")) 1
    rw [if_pos hne]
    exact enumFrom_pairWithPositions _ 0

/-- Witness for C9: a blank override yields the four defaults with
positions 1–4; the override built from " Alameda , ,San Mateo " yields
the stripped names in order with empty segments dropped, paired 1 and
2. -/
theorem load_target_counties_spec_witness :
    load_target_counties "   "
        = [("Santa Clara", 1), ("San Mateo", 2),
           ("Alameda", 3), ("San Francisco", 4)]
    ∧ load_target_counties " Alameda , ,San Mateo "
        = [("Alameda", 1), ("San Mateo", 2)] :=
  ⟨(load_target_counties_spec "   ").1 (by decide),
    ((load_target_counties_spec " Alameda , ,San Mateo ").2 (by decide)).trans
      (by decide)⟩

end Sala
